import Mathlib

/-!
Verification of the window lifecycle and recovery manager of a desktop
chat application shell.

The definitions below are shallow embeddings of the TypeScript sources:

* `renderProcessGone`, `runCrashes` — crash-recovery policy of
  `WindowLifecycleManager.setupRenderProcessMonitoring`
  (`src/apps/desktop/src/main/core/window/WindowPositionManager.ts`,
  second document in the file).
* `closeHandler` — the `close` event handler installed by
  `Browser.setupEventListeners` (`src/unnamed/part_003`).

Machine integers are modelled as `Nat`/`Int`; timestamps are epoch
milliseconds as produced by `Date.now()`.
-/

/-- Per-window crash-recovery state: `lastRendererProcessCrashTime`,
initialized to `0` in the `WindowLifecycleManager` constructor. -/
structure CrashState where
  lastCrash : Nat
deriving DecidableEq, Repr

/-- Effect chosen by the render-process-gone handler: reload the web
contents, or exit the whole application with the given code. -/
inductive CrashAction where
  | reload
  | exitApp (code : Nat)
deriving DecidableEq, Repr

/-- The body of the `render-process-gone` listener in
`WindowLifecycleManager.setupRenderProcessMonitoring`: record the
current time; if more than `60 * 1000` ms elapsed since the previous
crash, reload the contents, otherwise `app.exit(1)`. -/
def renderProcessGone (s : CrashState) (currentTime : Nat) : CrashState × CrashAction :=
  let lastCrashTime := s.lastCrash
  let s2 : CrashState := { lastCrash := currentTime }
  if currentTime - lastCrashTime > 60 * 1000 then
    (s2, CrashAction.reload)
  else
    (s2, CrashAction.exitApp 1)

/-- Run the crash handler over a sequence of crash timestamps,
collecting the chosen actions. -/
def runCrashes : CrashState → List Nat → List CrashAction
  | _, [] => []
  | s, t :: ts =>
    let r := renderProcessGone s t
    r.2 :: runCrashes r.1 ts

/-- Inputs read by the `close` event handler of
`Browser.setupEventListeners` (`src/unnamed/part_003`): the process-wide
`app.isQuiting` flag, the window's `options.keepAlive` flag, and the
value `displayManager.shouldHideDock()` would return at that moment. -/
structure CloseCtx where
  isQuiting : Bool
  keepAlive : Bool
  shouldHideDockNow : Bool
deriving DecidableEq, Repr

/-- Observable effects of one run of the `close` handler:
whether `e.preventDefault()` was called, whether the window was hidden,
whether `cleanupResources()` ran, and whether the dock was hidden. -/
structure CloseEffect where
  defaultPrevented : Bool
  hidden : Bool
  cleanedUp : Bool
  dockHidden : Bool
deriving DecidableEq, Repr

/-- The `close` handler of `Browser.setupEventListeners`
(`src/unnamed/part_003`): when the app is quitting, clean up and let the
close proceed; otherwise, when `keepAlive` is set, prevent the default
close, hide the window and possibly hide the dock; otherwise clean up
and let the close proceed. -/
def closeHandler (c : CloseCtx) : CloseEffect :=
  if c.isQuiting then
    { defaultPrevented := false, hidden := false, cleanedUp := true, dockHidden := false }
  else if c.keepAlive then
    { defaultPrevented := true, hidden := true, cleanedUp := false,
      dockHidden := c.shouldHideDockNow }
  else
    { defaultPrevented := false, hidden := false, cleanedUp := true, dockHidden := false }

/-- Electron close semantics: the native window proceeds to destruction
exactly when the `close` event's default was not prevented. -/
def windowDestroyed (e : CloseEffect) : Bool :=
  !e.defaultPrevented

/-- Lookup in an association list keyed by identifier, as done by the
registry `Map.get` calls in `BrowserManager` and by `ipcMain`. -/
def mapGet {α : Type} : List (String × α) → String → Option α
  | [], _ => none
  | (k, v) :: rest, id => if k = id then some v else mapGet rest id

/-- The `BrowserManager.browsers` registry
(`src/apps/desktop/src/main/core/WindowErrorHandler.ts`, second
document): a map from identifier to the live `Browser` instance,
together with a counter supplying fresh instance identities for
`new Browser(...)`. -/
structure Registry where
  browsers : List (String × Nat)
  fresh : Nat
deriving DecidableEq, Repr

/-- `BrowserManager.retrieveOrInitialize`: return the instance already
registered for the identifier, or construct a fresh one and register
it. The code runs synchronously on the single control thread, so the
check-and-insert is atomic. -/
def retrieveOrInitialize (r : Registry) (id : String) : Nat × Registry :=
  match mapGet r.browsers id with
  | some b => (b, r)
  | none => (r.fresh, ⟨(id, r.fresh) :: r.browsers, r.fresh + 1⟩)

/-- A sequence of `retrieveByIdentifier`-style registry retrievals
starting from the empty registry (`BrowserManager` never deletes map
entries). -/
def execGets (ops : List String) : Registry :=
  ops.foldl (fun r id => (retrieveOrInitialize r id).2) ⟨[], 0⟩

/-- The per-`Browser` native-window slot of `src/unnamed/part_003`:
`_browserWindow` (a native handle identified by a number), the set of
handles that have been destroyed, and a counter supplying fresh
handles for `new BrowserWindow(config)`. -/
structure BrowserState where
  browserWindow : Option Nat
  destroyedHandles : List Nat
  fresh : Nat
deriving DecidableEq, Repr

/-- Handles handed out so far are numbered below `fresh`, so a newly
constructed handle is never already destroyed. -/
def browserWf (s : BrowserState) : Prop :=
  ∀ h ∈ s.destroyedHandles, h < s.fresh

/-- `Browser.retrieveOrInitialize` (`src/unnamed/part_003`): when
`_browserWindow` exists and is not destroyed, return it unchanged;
otherwise construct a fresh native window and store it in
`_browserWindow` (the store happens before the remaining construction
steps run, so a reentrant call observes the in-progress handle). -/
def browserRetrieveOrInitialize (s : BrowserState) : Nat × BrowserState :=
  match s.browserWindow with
  | some w =>
    if w ∈ s.destroyedHandles then
      (s.fresh, ⟨some s.fresh, s.destroyedHandles, s.fresh + 1⟩)
    else
      (w, s)
  | none => (s.fresh, ⟨some s.fresh, s.destroyedHandles, s.fresh + 1⟩)

/-- The `ipcMain` state, modelled after Electron's implementation:
`handle(key, fn)` registrations live in an internal invoke-handler
map, while `listenerCount` is the EventEmitter method inherited by
`ipcMain` and counts only `.on`/`.once` listeners. The two tables are
disjoint: an invoke handler is not an EventEmitter listener. This
repository never registers a `.on` listener under a retry key, so
`onListeners` stays empty for those keys. -/
structure IpcState where
  invokeHandlers : List String
  onListeners : List String
deriving DecidableEq, Repr

/-- `ipcMain.listenerCount(key)`: the EventEmitter listener count.
Invoke handlers registered through `handle` are not counted. -/
def listenerCount (s : IpcState) (k : String) : Nat :=
  s.onListeners.count k

/-- `ipcMain.removeHandler(key)`: drop the invoke handler registered
for the key. -/
def removeHandler (s : IpcState) (k : String) : IpcState :=
  ⟨s.invokeHandlers.erase k, s.onListeners⟩

/-- Result of `ipcMain.handle(key, fn)`: either the new table, or the
fault Electron raises when a second handler is registered for a key. -/
inductive HandleResult where
  | ok (s : IpcState)
  | secondHandlerFault
deriving DecidableEq, Repr

/-- `ipcMain.handle(key, fn)`: registering faults when an invoke
handler for the key already exists. -/
def ipcHandle (s : IpcState) (k : String) : HandleResult :=
  if k ∈ s.invokeHandlers then HandleResult.secondHandlerFault
  else HandleResult.ok ⟨k :: s.invokeHandlers, s.onListeners⟩

/-- `WindowErrorHandler.cleanupRetryHandler`
(`src/apps/desktop/src/main/core/WindowErrorHandler.ts`): remove the
retry handler only when one is registered for this window's key. -/
def cleanupRetryHandler (s : IpcState) (k : String) : IpcState :=
  if 0 < listenerCount s k then removeHandler s k else s

/-- `WindowErrorHandler.setupRetryHandler`: first remove any existing
retry handler for this instance, then register the retry callback
under the instance's key. -/
def setupRetryHandler (s : IpcState) (k : String) : HandleResult :=
  ipcHandle (cleanupRetryHandler s k) k

/-- Events driving one window's `WindowErrorHandler`: a content-load
failure (which arms the retry handler), a retry invocation that
succeeds (which removes it), and a retry invocation that fails (which
reloads the error surface and leaves the handler armed). -/
inductive RetryEvent where
  | loadError
  | retrySucceeds
  | retryFails
deriving DecidableEq, Repr

/-- The ipc table together with a flag recording whether a
second-handler registration fault was ever raised. -/
structure RetrySystem where
  ipc : IpcState
  faulted : Bool
deriving DecidableEq, Repr

/-- One `WindowErrorHandler` event: `handleLoadError` calls
`setupRetryHandler`; a successful retry runs `cleanupRetryHandler`; a
failed retry only reloads the error page. -/
def stepRetry (k : String) (sys : RetrySystem) : RetryEvent → RetrySystem
  | RetryEvent.loadError =>
    match setupRetryHandler sys.ipc k with
    | HandleResult.ok s2 => { ipc := s2, faulted := sys.faulted }
    | HandleResult.secondHandlerFault => { ipc := sys.ipc, faulted := true }
  | RetryEvent.retrySucceeds => { ipc := cleanupRetryHandler sys.ipc k, faulted := sys.faulted }
  | RetryEvent.retryFails => sys

/-- Run a window's retry-handler events from an empty ipc table. -/
def runRetryEvents (k : String) (evs : List RetryEvent) : RetrySystem :=
  evs.foldl (stepRetry k) ⟨⟨[], []⟩, false⟩

/-- Result of the awaited `window.loadURL(originalUrl)` inside the
retry callback. -/
inductive LoadResult where
  | success
  | err (msg : String)
deriving DecidableEq, Repr

/-- The tagged object returned by the retry callback:
`{ success: true }` or `{ error: err.message, success: false }`. -/
structure RetryOutcome where
  success : Bool
  error : Option String
deriving DecidableEq, Repr

/-- Everything observable about one run of the retry callback: the
returned outcome, the ipc table afterwards, and whether the error page
was reloaded. -/
structure RetryCallbackResult where
  outcome : RetryOutcome
  ipc : IpcState
  errorPageReloaded : Bool
deriving DecidableEq, Repr

/-- The callback registered by `setupRetryHandler`
(`WindowErrorHandler.ts` lines 39-52). Its try/catch is modelled with
`Except`: the try branch deregisters the handler and returns
`{success: true}`; the catch branch reloads the error surface and
returns `{error, success: false}`. Both branches produce `Except.ok`,
so no fault crosses the ipc boundary. -/
def retryCallback (k : String) (s : IpcState) (load : LoadResult) :
    Except String RetryCallbackResult :=
  match load with
  | LoadResult.success =>
    Except.ok ⟨⟨true, none⟩, cleanupRetryHandler s k, false⟩
  | LoadResult.err m =>
    Except.ok ⟨⟨false, some m⟩, s, true⟩

/-- A live window as seen by the broadcast router: its renderer
communication channel (the `webContents`) and whether the native
window has been destroyed. -/
structure WindowC where
  channel : Nat
  destroyed : Bool
deriving DecidableEq, Repr

/-- `Browser.broadcast` (`src/unnamed/part_003`): when the native
window is destroyed, deliver nothing; otherwise send the event on this
window's own channel. The result is the list of (channel, event)
deliveries performed. -/
def browserBroadcast (w : WindowC) (event : String) : List (Nat × String) :=
  if w.destroyed then [] else [(w.channel, event)]

/-- Outcome of `BrowserManager.broadcastToWindow`: the deliveries made
and whether the missing-window warning was logged. -/
structure BroadcastResult where
  deliveries : List (Nat × String)
  warned : Bool
deriving DecidableEq, Repr

/-- `BrowserManager.broadcastToWindow`
(`src/apps/desktop/src/main/core/WindowErrorHandler.ts`, second
document): look up the identifier in the registry; when absent, log a
warning and return without delivering; otherwise delegate to that
browser's `broadcast`. -/
def broadcastToWindow (browsers : List (String × WindowC)) (id event : String) :
    BroadcastResult :=
  match mapGet browsers id with
  | none => ⟨[], true⟩
  | some w => ⟨browserBroadcast w event, false⟩

/-- The native-window predicates read by
`WindowDisplayManager.toggleWindow`. -/
structure WinState where
  destroyed : Bool
  fullScreen : Bool
  visible : Bool
  focused : Bool
deriving DecidableEq, Repr

/-- Action selected by `WindowDisplayManager.toggleWindow`. -/
inductive ToggleAction where
  | noOpDestroyed
  | noOpFullscreen
  | hideWin
  | focusOnly
  | showWin
deriving DecidableEq, Repr

/-- `WindowDisplayManager.toggleWindow`
(`src/apps/desktop/src/main/core/window/WindowDisplayManager.ts`):
warn-and-return on a destroyed window; no-op while fullscreen and
visible; hide when visible and focused; focus when visible and
unfocused; show when hidden. -/
def toggleWindow (w : WinState) : ToggleAction :=
  if w.destroyed then ToggleAction.noOpDestroyed
  else if w.fullScreen && w.visible then ToggleAction.noOpFullscreen
  else if w.visible then
    if w.focused then ToggleAction.hideWin else ToggleAction.focusOnly
  else ToggleAction.showWin

/-- A rectangle with integer coordinates, as Electron reports bounds
and display work areas. -/
structure Rect where
  x : Int
  y : Int
  width : Int
  height : Int
deriving DecidableEq, Repr

/-- JavaScript `Math.round (a + b / 2)` for integers `a`, `b`:
`Math.round` is floor of the value plus one half, so the result is
`⌊(2a + b + 1) / 2⌋`. -/
def jsRoundHalfSum (a b : Int) : Int :=
  Int.fdiv (2 * a + b + 1) 2

/-- `WindowDisplayManager.centerOnDisplay`: with the matching
display's work area and the window's bounds, move the window to
`(round(workArea.x + (workArea.width - bounds.width) / 2),
  round(workArea.y + (workArea.height - bounds.height) / 2))`.
No clamping is applied. -/
def centerOnDisplay (workArea : Rect) (windowBounds : Rect) : Int × Int :=
  (jsRoundHalfSum workArea.x (workArea.width - windowBounds.width),
   jsRoundHalfSum workArea.y (workArea.height - windowBounds.height))

/-- `WindowPositionManager.positionWindowOnDisplay`
(`src/apps/desktop/src/main/core/window/WindowPositionManager.ts`):
`Math.floor(Math.max(x + (displayWidth - width) / 2, x))` and the same
for `y`. Since `max` commutes with halving, the floor of the max of
the two half-integer values is the max of their doubled numerators,
floor-divided by 2. -/
def positionWindowOnDisplay (workArea : Rect) (contentWidth contentHeight : Int) :
    Int × Int :=
  (Int.fdiv (max (2 * workArea.x + (workArea.width - contentWidth)) (2 * workArea.x)) 2,
   Int.fdiv (max (2 * workArea.y + (workArea.height - contentHeight)) (2 * workArea.y)) 2)

/-- A managed native window as seen by
`BrowserWindow.getAllWindows()`: its identity and visibility. -/
structure ManagedWindow where
  winId : Nat
  visible : Bool
deriving DecidableEq, Repr

/-- `WindowDisplayManager.shouldHideDock`
(`src/apps/desktop/src/main/core/window/WindowDisplayManager.ts`):
false off macOS; on macOS, true exactly when no window other than this
one is visible. -/
def shouldHideDock (isMacP : Bool) (allWindows : List ManagedWindow) (selfId : Nat) :
    Bool :=
  if !isMacP then false
  else (allWindows.filter (fun w => w.visible && w.winId != selfId)).length == 0

/-- `Browser.shouldHideDock` from the earlier code path in
`src/unnamed/part_002`: it reads only whether `app.browserManager` is
set and ignores the managed windows entirely, returning `true`
whenever the manager exists. The window list and the closing window
are passed to expose the environment the function disregards. -/
def shouldHideDock002 (hasBrowserManager : Bool) (_allWindows : List ManagedWindow)
    (_selfId : Nat) : Bool :=
  if !hasBrowserManager then false else true

/-- The fields of the static window catalog (`appBrowsers` in
`src/unnamed/part_000`) relevant to lifecycle policy. A missing
`keepAlive`/`showOnInit` in the source literal is the JavaScript
`undefined`, which is falsy, so it is modelled as `false`. -/
structure CatalogEntry where
  identifier : String
  keepAlive : Bool
  showOnInit : Bool
  contentPath : String
deriving DecidableEq, Repr

/-- The shipped catalog `appBrowsers` (`src/unnamed/part_000`): `chat`
with `keepAlive` and `showOnInit` set, `devtools` and `settings`
without (`settings` has its `keepAlive` line commented out). -/
def appBrowsers : List CatalogEntry :=
  [⟨"chat", true, true, "/chat"⟩,
   ⟨"devtools", false, false, "/desktop/devtools"⟩,
   ⟨"settings", false, false, "/settings"⟩]

/-- `BrowserManager.initializeBrowsers`: iterate the catalog and
construct (via `retrieveOrInitialize`) only the entries with
`keepAlive` set, starting from the empty registry. -/
def initializeBrowsers : Registry :=
  appBrowsers.foldl
    (fun r b => if b.keepAlive then (retrieveOrInitialize r b.identifier).2 else r)
    ⟨[], 0⟩

/-- C1: on a renderer-process-gone event, if the elapsed time since the
window's previous crash (initially epoch 0) exceeds 60000 ms the content
is reloaded, otherwise the process exits with status 1; two crashes
70 s apart both reload, two crashes 10 s apart terminate the process. -/
theorem c1_crash_recovery :
    (∀ (s : CrashState) (t : Nat), 60000 < t - s.lastCrash →
        renderProcessGone s t = (⟨t⟩, CrashAction.reload)) ∧
    (∀ (s : CrashState) (t : Nat), t - s.lastCrash ≤ 60000 →
        renderProcessGone s t = (⟨t⟩, CrashAction.exitApp 1)) ∧
    runCrashes ⟨0⟩ [100000, 170000] = [CrashAction.reload, CrashAction.reload] ∧
    runCrashes ⟨0⟩ [100000, 110000] = [CrashAction.reload, CrashAction.exitApp 1] := by
  refine ⟨?_, ?_, by decide, by decide⟩
  · intro s t h
    simp only [renderProcessGone, gt_iff_lt]
    rw [if_pos (by omega)]
  · intro s t h
    simp only [renderProcessGone, gt_iff_lt]
    rw [if_neg (by omega)]

/-- Witness for C1 at concrete crash times. -/
theorem c1_crash_recovery_witness :
    renderProcessGone ⟨0⟩ 100000 = (⟨100000⟩, CrashAction.reload) ∧
    renderProcessGone ⟨100000⟩ 110000 = (⟨110000⟩, CrashAction.exitApp 1) :=
  ⟨c1_crash_recovery.1 ⟨0⟩ 100000 (by decide),
   c1_crash_recovery.2.1 ⟨100000⟩ 110000 (by decide)⟩

/-- C2: a window with `keepAlive = true` receiving a close request while
the process is not quitting has the close default-prevented and is
hidden, never destroyed; for such a window the native window is
destroyed only when the process is quitting. -/
theorem c2_keepalive_close :
    ∀ c : CloseCtx, c.keepAlive = true →
      (c.isQuiting = false →
        (closeHandler c).defaultPrevented = true ∧
        (closeHandler c).hidden = true ∧
        windowDestroyed (closeHandler c) = false) ∧
      (windowDestroyed (closeHandler c) = true → c.isQuiting = true) := by
  intro c hka
  obtain ⟨q, ka, d⟩ := c
  cases q <;> simp_all [closeHandler, windowDestroyed]

/-- Witness for C2 at a concrete close context. -/
theorem c2_keepalive_close_witness :
    (closeHandler ⟨false, true, false⟩).defaultPrevented = true ∧
    (closeHandler ⟨false, true, false⟩).hidden = true ∧
    windowDestroyed (closeHandler ⟨false, true, false⟩) = false :=
  (c2_keepalive_close ⟨false, true, false⟩ rfl).1 rfl

theorem mapGet_eq_none_not_mem {α : Type} (l : List (String × α)) (id : String)
    (h : mapGet l id = none) : id ∉ l.map Prod.fst := by
  induction l with
  | nil => simp
  | cons p rest ih =>
    obtain ⟨k, v⟩ := p
    by_cases hk : k = id
    · simp [mapGet, hk] at h
    · simp only [mapGet, hk, if_false] at h
      simp [ih h, Ne.symm hk]

theorem retrieveOrInitialize_nodup (r : Registry) (id : String)
    (h : (r.browsers.map Prod.fst).Nodup) :
    (((retrieveOrInitialize r id).2).browsers.map Prod.fst).Nodup := by
  unfold retrieveOrInitialize
  cases hm : mapGet r.browsers id with
  | some b => simpa using h
  | none =>
    simp only [List.map_cons, List.nodup_cons]
    exact ⟨mapGet_eq_none_not_mem _ _ hm, h⟩

theorem execGets_nodup (ops : List String) :
    (((execGets ops).browsers).map Prod.fst).Nodup := by
  have aux : ∀ (l : List String) (r : Registry), (r.browsers.map Prod.fst).Nodup →
      (((l.foldl (fun r id => (retrieveOrInitialize r id).2) r).browsers).map Prod.fst).Nodup := by
    intro l
    induction l with
    | nil => intro r h; exact h
    | cons id rest ih =>
      intro r h
      exact ih _ (retrieveOrInitialize_nodup r id h)
  exact aux ops ⟨[], 0⟩ (by simp)

/-- C3: at most one live window instance per identifier: a get on an
identifier already in the registry returns the existing instance and
leaves the registry unchanged; after any sequence of retrievals each
identifier occurs at most once in the registry; and a second
`Browser.retrieveOrInitialize` issued right after one completed (while
the construction it started is still the current handle) returns the
same in-progress instance without constructing a second one. -/
theorem c3_single_instance :
    (∀ (r : Registry) (id : String) (b : Nat), mapGet r.browsers id = some b →
        retrieveOrInitialize r id = (b, r)) ∧
    (∀ (ops : List String) (id : String),
        (((execGets ops).browsers).map Prod.fst).count id ≤ 1) ∧
    (∀ s : BrowserState, browserWf s →
        browserRetrieveOrInitialize (browserRetrieveOrInitialize s).2 =
          browserRetrieveOrInitialize s) := by
  refine ⟨?_, ?_, ?_⟩
  · intro r id b h
    unfold retrieveOrInitialize
    rw [h]
  · intro ops id
    exact List.nodup_iff_count_le_one.mp (execGets_nodup ops) id
  · intro s hwf
    have hfresh : s.fresh ∉ s.destroyedHandles := by
      intro hmem
      exact absurd (hwf s.fresh hmem) (lt_irrefl s.fresh)
    unfold browserRetrieveOrInitialize
    cases hw : s.browserWindow with
    | some w =>
      by_cases hd : w ∈ s.destroyedHandles
      · simp only [hd, if_pos]
        simp [hfresh]
      · simp [hd, hw]
    | none =>
      simp [hfresh]

/-- Witness for C3 at concrete registry and browser states. -/
theorem c3_single_instance_witness :
    retrieveOrInitialize ⟨[("chat", 0)], 1⟩ "chat" = (0, ⟨[("chat", 0)], 1⟩) ∧
    browserRetrieveOrInitialize (browserRetrieveOrInitialize ⟨none, [], 0⟩).2 =
      browserRetrieveOrInitialize ⟨none, [], 0⟩ :=
  ⟨c3_single_instance.1 ⟨[("chat", 0)], 1⟩ "chat" 0 (by decide),
   c3_single_instance.2.2 ⟨none, [], 0⟩ (by simp [browserWf])⟩

theorem cleanupRetryHandler_noop (s : IpcState) (k : String)
    (h : k ∉ s.onListeners) : cleanupRetryHandler s k = s := by
  unfold cleanupRetryHandler listenerCount
  rw [if_neg]
  intro hp
  exact h (List.count_pos_iff.mp hp)

/-- C4 (code bug): `ipcMain.listenerCount` counts only EventEmitter
`.on` listeners, never `handle` registrations, so on every state with
no `.on` listener under the retry key — which is every reachable state
of this program — `cleanupRetryHandler` removes nothing; arming the
retry handler for a window whose key is already registered therefore
reaches `ipcMain.handle` with the key present and raises the
second-handler fault, and two content-load failures in a row produce
exactly that fault, contrary to the claim. -/
theorem c4_retry_rearm_faults :
    (∀ (s : IpcState) (k : String), k ∉ s.onListeners → cleanupRetryHandler s k = s) ∧
    (setupRetryHandler ⟨["retry-connection-chat"], []⟩ "retry-connection-chat" =
      HandleResult.secondHandlerFault) ∧
    (runRetryEvents "retry-connection-chat" [RetryEvent.loadError, RetryEvent.loadError] =
      ⟨⟨["retry-connection-chat"], []⟩, true⟩) := by
  refine ⟨?_, by decide, by decide⟩
  intro s k h
  exact cleanupRetryHandler_noop s k h

/-- Witness for C4 at the concrete armed ipc state. -/
theorem c4_retry_rearm_faults_witness :
    cleanupRetryHandler ⟨["retry-connection-chat"], []⟩ "retry-connection-chat" =
      ⟨["retry-connection-chat"], []⟩ :=
  c4_retry_rearm_faults.1 ⟨["retry-connection-chat"], []⟩ "retry-connection-chat"
    (by decide)

/-- C5 (code bug): the retry callback always returns a tagged outcome
and never a thrown fault, and on a failed reload it reloads the error
surface and returns the reason; but the deregistration the claim
states for the success path does not happen: with the handler
registered and no `.on` listener under the key, the success-path
`cleanupRetryHandler` call removes nothing and the handler stays
registered. -/
theorem c5_retry_success_no_deregister :
    (∀ (k : String) (s : IpcState) (load : LoadResult),
        ∃ r, retryCallback k s load = Except.ok r) ∧
    (∃ r, retryCallback "retry-connection-chat" ⟨["retry-connection-chat"], []⟩
        LoadResult.success = Except.ok r ∧
      r.outcome = ⟨true, none⟩ ∧
      r.ipc.invokeHandlers.count "retry-connection-chat" = 1 ∧
      r.errorPageReloaded = false) ∧
    (∀ (k : String) (s : IpcState) (m : String),
        ∃ r, retryCallback k s (LoadResult.err m) = Except.ok r ∧
          r.outcome = ⟨false, some m⟩ ∧ r.errorPageReloaded = true ∧ r.ipc = s) := by
  refine ⟨?_, ?_, ?_⟩
  · intro k s load
    cases load with
    | success => exact ⟨_, rfl⟩
    | err m => exact ⟨_, rfl⟩
  · exact ⟨⟨⟨true, none⟩,
      cleanupRetryHandler ⟨["retry-connection-chat"], []⟩ "retry-connection-chat", false⟩,
      rfl, rfl, by decide, rfl⟩
  · intro k s m
    exact ⟨⟨⟨false, some m⟩, s, true⟩, rfl, rfl, rfl, rfl⟩

/-- C6: `broadcastToWindow` delivers the event only on the channel of
the window registered under the given identifier, never on any other
window's channel, and when the identifier has no live instance it logs
a warning and delivers nowhere. -/
theorem c6_broadcast_addressing :
    (∀ (bs : List (String × WindowC)) (id event : String),
        mapGet bs id = none → broadcastToWindow bs id event = ⟨[], true⟩) ∧
    (∀ (bs : List (String × WindowC)) (id event : String) (w : WindowC),
        mapGet bs id = some w →
        (broadcastToWindow bs id event).warned = false ∧
        ∀ d ∈ (broadcastToWindow bs id event).deliveries, d = (w.channel, event)) ∧
    (∀ (bs : List (String × WindowC)) (id id2 event : String) (w w2 : WindowC),
        mapGet bs id = some w → mapGet bs id2 = some w2 → w2.channel ≠ w.channel →
        ∀ d ∈ (broadcastToWindow bs id event).deliveries, d.1 ≠ w2.channel) := by
  refine ⟨?_, ?_, ?_⟩
  · intro bs id event h
    unfold broadcastToWindow
    rw [h]
  · intro bs id event w h
    unfold broadcastToWindow
    rw [h]
    refine ⟨rfl, ?_⟩
    intro d hd
    unfold browserBroadcast at hd
    by_cases hdes : w.destroyed
    · simp [hdes] at hd
    · simp only [hdes, Bool.false_eq_true, if_neg, if_false, List.mem_singleton] at hd
      simpa using hd
  · intro bs id id2 event w w2 h h2 hne d hd
    unfold broadcastToWindow at hd
    rw [h] at hd
    unfold browserBroadcast at hd
    by_cases hdes : w.destroyed
    · simp [hdes] at hd
    · simp only [hdes, Bool.false_eq_true, if_neg, if_false, List.mem_singleton] at hd
      subst hd
      exact fun hc => hne hc.symm

/-- Witness for C6: a missing identifier warns and delivers nothing,
and a present identifier delivers only on its own channel. -/
theorem c6_broadcast_addressing_witness :
    broadcastToWindow [("chat", ⟨10, false⟩)] "settings" "theme-changed" = ⟨[], true⟩ ∧
    ((broadcastToWindow [("settings", ⟨11, false⟩), ("chat", ⟨10, false⟩)]
        "settings" "theme-changed").warned = false ∧
      ∀ d ∈ (broadcastToWindow [("settings", ⟨11, false⟩), ("chat", ⟨10, false⟩)]
          "settings" "theme-changed").deliveries,
        d = ((11 : Nat), "theme-changed")) :=
  ⟨c6_broadcast_addressing.1 [("chat", ⟨10, false⟩)] "settings" "theme-changed" (by decide),
   c6_broadcast_addressing.2.1 [("settings", ⟨11, false⟩), ("chat", ⟨10, false⟩)]
     "settings" "theme-changed" ⟨11, false⟩ (by decide)⟩

/-- C7: for a non-destroyed window, toggle is a no-op while fullscreen
and visible; hides when visible and focused; only focuses when visible
and unfocused; shows when hidden. -/
theorem c7_toggle_cases :
    ∀ w : WinState, w.destroyed = false →
      (w.fullScreen = true → w.visible = true →
          toggleWindow w = ToggleAction.noOpFullscreen) ∧
      (w.fullScreen = false → w.visible = true → w.focused = true →
          toggleWindow w = ToggleAction.hideWin) ∧
      (w.fullScreen = false → w.visible = true → w.focused = false →
          toggleWindow w = ToggleAction.focusOnly) ∧
      (w.visible = false → toggleWindow w = ToggleAction.showWin) := by
  intro w hd
  obtain ⟨d, fs, vis, foc⟩ := w
  simp only at hd
  subst hd
  cases fs <;> cases vis <;> cases foc <;> simp_all [toggleWindow]

/-- Witness for C7 on a visible, focused, non-fullscreen window. -/
theorem c7_toggle_cases_witness :
    toggleWindow ⟨false, false, true, true⟩ = ToggleAction.hideWin :=
  (c7_toggle_cases ⟨false, false, true, true⟩ rfl).2.1 rfl rfl rfl

/-- C8 counterexample: `centerOnDisplay` does not clamp to the
work-area origin. For a 800×600 work area at the origin and a
1000×800 window, the computed position is (-100, -100), strictly less
than the work-area origin (0, 0) in both coordinates. -/
theorem c8_center_counterexample :
    centerOnDisplay ⟨0, 0, 800, 600⟩ ⟨0, 0, 1000, 800⟩ = (-100, -100) ∧
    ((-100 : Int) < 0) := by
  decide

/-- C8 amended: `centerOnDisplay` moves the window to the rounded
centered top-left computed from the matching display's work area with
no clamping, so the result is at or beyond the work-area origin only
when the window fits inside the work area; the clamp to the work-area
origin exists in `WindowPositionManager.positionWindowOnDisplay`,
whose result is never less than the work-area origin for any window
size. -/
theorem c8_center_amended :
    (∀ wa wb : Rect, wb.width ≤ wa.width → wb.height ≤ wa.height →
        wa.x ≤ (centerOnDisplay wa wb).1 ∧ wa.y ≤ (centerOnDisplay wa wb).2) ∧
    (∀ (wa : Rect) (contentW contentH : Int),
        wa.x ≤ (positionWindowOnDisplay wa contentW contentH).1 ∧
        wa.y ≤ (positionWindowOnDisplay wa contentW contentH).2) := by
  constructor
  · intro wa wb hw hh
    constructor
    · show wa.x ≤ Int.fdiv (2 * wa.x + (wa.width - wb.width) + 1) 2
      rw [Int.fdiv_eq_ediv _ (by norm_num)]
      omega
    · show wa.y ≤ Int.fdiv (2 * wa.y + (wa.height - wb.height) + 1) 2
      rw [Int.fdiv_eq_ediv _ (by norm_num)]
      omega
  · intro wa contentW contentH
    constructor
    · show wa.x ≤ Int.fdiv (max (2 * wa.x + (wa.width - contentW)) (2 * wa.x)) 2
      rw [Int.fdiv_eq_ediv _ (by norm_num)]
      rcases le_total (2 * wa.x + (wa.width - contentW)) (2 * wa.x) with hm | hm
      · rw [max_eq_right hm]; omega
      · rw [max_eq_left hm]; omega
    · show wa.y ≤ Int.fdiv (max (2 * wa.y + (wa.height - contentH)) (2 * wa.y)) 2
      rw [Int.fdiv_eq_ediv _ (by norm_num)]
      rcases le_total (2 * wa.y + (wa.height - contentH)) (2 * wa.y) with hm | hm
      · rw [max_eq_right hm]; omega
      · rw [max_eq_left hm]; omega

/-- Witness for C8 amended: a 1200×800 window fitting a 1920×1080 work
area at (0, 0) centers at a non-negative position, and
`positionWindowOnDisplay` clamps an oversized window to the origin. -/
theorem c8_center_amended_witness :
    ((0 : Int) ≤ (centerOnDisplay ⟨0, 0, 1920, 1080⟩ ⟨0, 0, 1200, 800⟩).1 ∧
      (0 : Int) ≤ (centerOnDisplay ⟨0, 0, 1920, 1080⟩ ⟨0, 0, 1200, 800⟩).2) ∧
    ((0 : Int) ≤ (positionWindowOnDisplay ⟨0, 0, 800, 600⟩ 1000 800).1 ∧
      (0 : Int) ≤ (positionWindowOnDisplay ⟨0, 0, 800, 600⟩ 1000 800).2) :=
  ⟨c8_center_amended.1 ⟨0, 0, 1920, 1080⟩ ⟨0, 0, 1200, 800⟩ (by decide) (by decide),
   c8_center_amended.2 ⟨0, 0, 800, 600⟩ 1000 800⟩

/-- C9 counterexample: the legacy `Browser.shouldHideDock` of
`src/unnamed/part_002` returns `true` while another managed window
(id 2) is visible, so the claim as stated fails on that cited code;
`WindowDisplayManager.shouldHideDock` returns `false` on the same
state. -/
theorem c9_dock_counterexample :
    shouldHideDock002 true [⟨1, true⟩, ⟨2, true⟩] 1 = true ∧
    (ManagedWindow.mk 2 true) ∈ [ManagedWindow.mk 1 true, ManagedWindow.mk 2 true] ∧
    (ManagedWindow.mk 2 true).winId ≠ 1 ∧
    (ManagedWindow.mk 2 true).visible = true ∧
    shouldHideDock true [⟨1, true⟩, ⟨2, true⟩] 1 = false := by
  decide

/-- C9 amended: `WindowDisplayManager.shouldHideDock` returns false on
non-macOS platforms and returns true only when no managed window other
than the one being closed is visible; the legacy
`Browser.shouldHideDock` of `src/unnamed/part_002` instead returns
true whenever the browser manager exists, regardless of other windows'
visibility. -/
theorem c9_dock_amended :
    (∀ (wins : List ManagedWindow) (selfId : Nat),
        shouldHideDock false wins selfId = false) ∧
    (∀ (isMacP : Bool) (wins : List ManagedWindow) (selfId : Nat),
        shouldHideDock isMacP wins selfId = true →
        isMacP = true ∧ ∀ w ∈ wins, w.winId ≠ selfId → w.visible = false) ∧
    (∀ (wins : List ManagedWindow) (selfId : Nat),
        shouldHideDock002 true wins selfId = true) := by
  refine ⟨?_, ?_, ?_⟩
  · intro wins selfId
    simp [shouldHideDock]
  · intro isMacP wins selfId h
    cases isMacP with
    | false => simp [shouldHideDock] at h
    | true =>
      refine ⟨rfl, ?_⟩
      intro w hw hne
      have h2 : wins.filter (fun w => w.visible && w.winId != selfId) = [] := by
        simpa [shouldHideDock, List.length_eq_zero] using h
      have h3 := List.filter_eq_nil_iff.mp h2 w hw
      simp only [Bool.and_eq_true, bne_iff_ne, Classical.not_and_iff_or_not_not] at h3
      rcases h3 with h3 | h3
      · exact Bool.not_eq_true w.visible ▸ h3
      · exact absurd hne (by simpa using h3)
  · intro wins selfId
    simp [shouldHideDock002]

/-- Witness for C9 amended: on macOS with only invisible other
windows, `shouldHideDock` is true and the conclusion holds for the
listed windows. -/
theorem c9_dock_amended_witness :
    shouldHideDock false [⟨2, true⟩] 1 = false ∧
    (true = true ∧ ∀ w ∈ [ManagedWindow.mk 2 false], w.winId ≠ 1 → w.visible = false) :=
  ⟨c9_dock_amended.1 [⟨2, true⟩] 1,
   c9_dock_amended.2.1 true [⟨2, false⟩] 1 (by decide)⟩

/-- C10: `initializeBrowsers` pre-creates exactly the catalog entries
with `keepAlive` - with the shipped catalog only `chat` - while
`settings` and `devtools` are absent until retrieved lazily by
identifier, and, having `keepAlive` unset, their close handler does
not prevent the default close, so their native windows are destroyed
rather than hidden. -/
theorem c10_startup_keepalive :
    (initializeBrowsers.browsers.map Prod.fst = ["chat"]) ∧
    (appBrowsers.all (fun b => b.keepAlive == (b.identifier == "chat")) = true) ∧
    (mapGet initializeBrowsers.browsers "settings" = none) ∧
    (mapGet initializeBrowsers.browsers "devtools" = none) ∧
    (((retrieveOrInitialize initializeBrowsers "settings").2).browsers.map Prod.fst =
      ["settings", "chat"]) ∧
    (((retrieveOrInitialize initializeBrowsers "devtools").2).browsers.map Prod.fst =
      ["devtools", "chat"]) ∧
    (appBrowsers.all (fun b =>
        b.keepAlive ||
          (windowDestroyed (closeHandler ⟨false, b.keepAlive, false⟩) &&
            !(closeHandler ⟨false, b.keepAlive, false⟩).hidden)) = true) := by
  decide
